import Mathlib

/-!
Verification of the cheque-manager repository's specification.

The Python sources are shallowly embedded: SQLite floats and Python floats
become rationals (ℚ), nullable columns become `Option`, datetime arithmetic
that only ever feeds whole-day comparisons is represented by the computed
day counts, and a raised exception that escapes a method becomes the
`Except.error` branch of the embedded function.
-/

namespace ChequeManager

/-! ## AdvancedAnalytics -/

/-- Embeds `AdvancedAnalytics._calculate_risk_score`.
`daysSinceBounce` is `none` when `last_bounce_date` is null or fails to
parse (the `except: pass` branch); otherwise it is the whole-day difference
`(datetime.now() - last_bounce).days`. `activeMonths` is accepted but, as
in the source, never read. -/
def calculate_risk_score (bounceRate : ℚ) (totalCheques : ℕ)
    (totalAmount : ℚ) (avgProcessingTime : ℚ)
    (daysSinceBounce : Option ℤ) (_activeMonths : ℕ) : ℚ :=
  let bounceFactor : ℚ := min (bounceRate * 2) 40
  let volumeFactor : ℚ :=
    if totalCheques < 5 then 20 else if totalCheques < 20 then 10 else 0
  let amountFactor : ℚ :=
    if totalAmount < 10000 then 15 else if totalAmount < 50000 then 8 else 0
  let processingFactor : ℚ :=
    if avgProcessingTime > 30 then 10 else if avgProcessingTime > 14 then 5 else 0
  let recentBounceFactor : ℚ :=
    match daysSinceBounce with
    | none => 0
    | some d => if d < 30 then 15 else if d < 90 then 10 else if d < 180 then 5 else 0
  min (bounceFactor + volumeFactor + amountFactor + processingFactor + recentBounceFactor) 100

/-- The risk levels of `AdvancedAnalytics.RiskLevel`. -/
inductive RiskLevel where
  | low
  | medium
  | high
  | critical
deriving DecidableEq, Repr

/-- Embeds the risk-level bucketing inside
`AdvancedAnalytics.calculate_client_risk_profiles`: the `if risk_score >= 80
... elif ... else` chain applied to the computed score. -/
def risk_level_of_score (riskScore : ℚ) : RiskLevel :=
  if riskScore ≥ 80 then .critical
  else if riskScore ≥ 60 then .high
  else if riskScore ≥ 40 then .medium
  else .low

/-! ## SmartAutomation: AI risk score -/

/-- Embeds `SmartAutomation.calculate_ai_risk_score` as a function of the
client-history row fetched by its SQL query.  `daysSinceLast` is `none`
when `last_cheque_date` fails to parse (then `recency_score = 0`);
`avgProcessingTime = 0` models the falsy `avg_processing_time`
(`processing_score = 100`).  When `totalCheques = 0` (or the fetch is
empty) the source returns the neutral score 50. -/
def calculate_ai_risk_score (totalCheques : ℕ) (avgAmount : ℚ)
    (bouncedCount : ℕ) (avgProcessingTime : ℚ)
    (daysSinceLast : Option ℤ) (banksUsed : ℕ) : ℚ :=
  if totalCheques = 0 then 50
  else
    let bounceRate : ℚ := (bouncedCount : ℚ) / (totalCheques : ℚ)
    let recencyScore : ℚ :=
      match daysSinceLast with
      | some d => max 0 (100 - (d : ℚ) / 30 * 10)
      | none => 0
    let volumeScore : ℚ := min 100 ((totalCheques : ℚ) * 2)
    let amountVarianceScore : ℚ := 100 - min 50 (avgAmount / 1000)
    let processingScore : ℚ :=
      if avgProcessingTime = 0 then 100 else max 0 (100 - avgProcessingTime * 2)
    let diversificationScore : ℚ := min 100 ((banksUsed : ℚ) * 20)
    let riskScore : ℚ :=
      bounceRate * 40 +
      (100 - recencyScore) * (15 / 100) +
      (100 - volumeScore) * (15 / 100) +
      amountVarianceScore * (10 / 100) +
      (100 - processingScore) * (10 / 100) +
      (100 - diversificationScore) * (10 / 100)
    min 100 (max 0 riskScore)

/-- C1 helper: `calculate_risk_score` is built from non-negative factors,
so it is non-negative whenever the bounce rate is. -/
theorem calculate_risk_score_nonneg (br : ℚ) (tc : ℕ) (ta pt : ℚ)
    (db : Option ℤ) (am : ℕ) (hbr : 0 ≤ br) :
    0 ≤ calculate_risk_score br tc ta pt db am := by
  unfold calculate_risk_score
  dsimp only
  apply le_min
  · have h1 : (0 : ℚ) ≤ min (br * 2) 40 := le_min (by positivity) (by norm_num)
    have h2 : (0 : ℚ) ≤ (if tc < 5 then (20 : ℚ) else if tc < 20 then 10 else 0) := by
      split <;> norm_num
      split <;> norm_num
    have h3 : (0 : ℚ) ≤ (if ta < 10000 then (15 : ℚ) else if ta < 50000 then 8 else 0) := by
      split <;> norm_num
      split <;> norm_num
    have h4 : (0 : ℚ) ≤ (if pt > 30 then (10 : ℚ) else if pt > 14 then 5 else 0) := by
      split <;> norm_num
      split <;> norm_num
    have h5 : (0 : ℚ) ≤ (match db with
        | none => (0 : ℚ)
        | some d => if d < 30 then 15 else if d < 90 then 10 else if d < 180 then 5 else 0) := by
      cases db with
      | none => norm_num
      | some d =>
        dsimp only
        split <;> norm_num
        split <;> norm_num
        split <;> norm_num
    linarith
  · norm_num

/-- C1 helper: `calculate_risk_score` is capped at 100. -/
theorem calculate_risk_score_le_100 (br : ℚ) (tc : ℕ) (ta pt : ℚ)
    (db : Option ℤ) (am : ℕ) :
    calculate_risk_score br tc ta pt db am ≤ 100 := by
  unfold calculate_risk_score
  exact min_le_right _ _

/-- C1 helper: `calculate_risk_score` is non-decreasing in the bounce rate
with all other inputs fixed. -/
theorem calculate_risk_score_mono (br1 br2 : ℚ) (tc : ℕ) (ta pt : ℚ)
    (db : Option ℤ) (am : ℕ) (h : br1 ≤ br2) :
    calculate_risk_score br1 tc ta pt db am ≤ calculate_risk_score br2 tc ta pt db am := by
  unfold calculate_risk_score
  dsimp only
  gcongr

/-- C1 helper: `calculate_ai_risk_score` lies in [0, 100]. -/
theorem calculate_ai_risk_score_bounds (tc : ℕ) (aa : ℚ) (bc : ℕ) (pt : ℚ)
    (dl : Option ℤ) (bu : ℕ) :
    0 ≤ calculate_ai_risk_score tc aa bc pt dl bu ∧
      calculate_ai_risk_score tc aa bc pt dl bu ≤ 100 := by
  unfold calculate_ai_risk_score
  split
  · norm_num
  · constructor
    · exact le_min (by norm_num) (le_max_left _ _)
    · exact min_le_left _ _

/-- C1 helper: `calculate_ai_risk_score` is non-decreasing in the bounced
count (hence in the bounce rate `bounced/total`) with all other inputs
fixed. -/
theorem calculate_ai_risk_score_mono (tc : ℕ) (aa : ℚ) (bc1 bc2 : ℕ) (pt : ℚ)
    (dl : Option ℤ) (bu : ℕ) (h : bc1 ≤ bc2) :
    calculate_ai_risk_score tc aa bc1 pt dl bu ≤
      calculate_ai_risk_score tc aa bc2 pt dl bu := by
  unfold calculate_ai_risk_score
  split
  · exact le_refl _
  · dsimp only
    gcongr

/-- C1: for every client-history input, the risk scores returned by
`AdvancedAnalytics._calculate_risk_score` (with a non-negative bounce rate,
as a bounce rate is a ratio of counts) and by
`SmartAutomation.calculate_ai_risk_score` lie in [0, 100], and both are
non-decreasing in the bounce rate when all other features are held fixed
(for the AI score, in the bounced count over a fixed total). -/
theorem C1_risk_score_bounded_and_monotone :
    (∀ (br : ℚ) (tc : ℕ) (ta pt : ℚ) (db : Option ℤ) (am : ℕ), 0 ≤ br →
        0 ≤ calculate_risk_score br tc ta pt db am ∧
          calculate_risk_score br tc ta pt db am ≤ 100) ∧
    (∀ (br1 br2 : ℚ) (tc : ℕ) (ta pt : ℚ) (db : Option ℤ) (am : ℕ), br1 ≤ br2 →
        calculate_risk_score br1 tc ta pt db am ≤
          calculate_risk_score br2 tc ta pt db am) ∧
    (∀ (tc : ℕ) (aa : ℚ) (bc : ℕ) (pt : ℚ) (dl : Option ℤ) (bu : ℕ),
        0 ≤ calculate_ai_risk_score tc aa bc pt dl bu ∧
          calculate_ai_risk_score tc aa bc pt dl bu ≤ 100) ∧
    (∀ (tc : ℕ) (aa : ℚ) (bc1 bc2 : ℕ) (pt : ℚ) (dl : Option ℤ) (bu : ℕ), bc1 ≤ bc2 →
        calculate_ai_risk_score tc aa bc1 pt dl bu ≤
          calculate_ai_risk_score tc aa bc2 pt dl bu) := by
  refine ⟨fun br tc ta pt db am hbr => ⟨?_, ?_⟩, fun br1 br2 tc ta pt db am h => ?_,
    fun tc aa bc pt dl bu => ?_, fun tc aa bc1 bc2 pt dl bu h => ?_⟩
  · exact calculate_risk_score_nonneg br tc ta pt db am hbr
  · exact calculate_risk_score_le_100 br tc ta pt db am
  · exact calculate_risk_score_mono br1 br2 tc ta pt db am h
  · exact calculate_ai_risk_score_bounds tc aa bc pt dl bu
  · exact calculate_ai_risk_score_mono tc aa bc1 bc2 pt dl bu h

/-- C8: for every score s in [0, 100], the risk level assigned by
`calculate_client_risk_profiles` is the four-bucket threshold function:
low for s < 40, medium for 40 ≤ s < 60, high for 60 ≤ s < 80, critical
for s ≥ 80. -/
theorem C8_risk_level_buckets (s : ℚ) (h0 : 0 ≤ s) (h100 : s ≤ 100) :
    (risk_level_of_score s = .low ↔ s < 40) ∧
    (risk_level_of_score s = .medium ↔ 40 ≤ s ∧ s < 60) ∧
    (risk_level_of_score s = .high ↔ 60 ≤ s ∧ s < 80) ∧
    (risk_level_of_score s = .critical ↔ 80 ≤ s) := by
  unfold risk_level_of_score
  split_ifs with h1 h2 h3 <;>
    refine ⟨⟨?_, ?_⟩, ⟨?_, ?_⟩, ⟨?_, ?_⟩, ⟨?_, ?_⟩⟩ <;>
    intro h <;>
    first
      | rfl
      | linarith
      | linarith [h.1, h.2]
      | (constructor <;> linarith)
      | (exact absurd h (by simp))

/-- The six internal statuses allowed by the `cheques` table's
`CHECK(status IN (...))` constraint in `DatabaseManager.init_database`. -/
def internal_statuses : List String :=
  ["en_attente", "encaisse", "rejete", "impaye", "depose", "annule"]

/-- The six bank-side statuses that key the `status_mapping` dict of
`SmartAutomation._map_bank_status_to_internal`. -/
def bank_statuses : List String :=
  ["cleared", "bounced", "returned", "pending", "processing", "cancelled"]

/-- Models Python's `str.lower()`: character-wise lower-casing (it agrees
with Python on the ASCII status strings this development compares). -/
def py_lower (s : String) : String := String.mk (s.data.map Char.toLower)

/-- Embeds `SmartAutomation._map_bank_status_to_internal`: the dict lookup
`status_mapping.get(bank_status.lower())` written as the equivalent chain of
key comparisons on the lower-cased input (the dict's keys are distinct). -/
def map_bank_status_to_internal (bankStatus : String) : Option String :=
  let l := py_lower bankStatus
  if l = "cleared" then some "encaisse"
  else if l = "bounced" then some "rejete"
  else if l = "returned" then some "rejete"
  else if l = "pending" then some "en_attente"
  else if l = "processing" then some "depose"
  else if l = "cancelled" then some "annule"
  else none

/-- C9: `_map_bank_status_to_internal` returns an internal status exactly
for the six bank-side statuses (case-insensitively, via lower-casing), the
status returned is always a member of the internal six-value enum, and
every other input maps to `none`. -/
theorem C9_bank_status_mapping (s : String) :
    ((map_bank_status_to_internal s).isSome ↔ py_lower s ∈ bank_statuses) ∧
    (∀ t, map_bank_status_to_internal s = some t → t ∈ internal_statuses) := by
  constructor
  · unfold map_bank_status_to_internal bank_statuses
    dsimp only
    split_ifs with h1 h2 h3 h4 h5 h6 <;> simp_all
  · intro t ht
    unfold map_bank_status_to_internal at ht
    dsimp only at ht
    unfold internal_statuses
    split_ifs at ht <;> simp_all

/-- C9 witness: the theorem applied to the concrete inputs "Cleared"
(mapped, case-insensitively, to "encaisse") and "unknown". -/
theorem C9_bank_status_witness :
    ("encaisse" ∈ internal_statuses) ∧
    ((map_bank_status_to_internal "Cleared").isSome ↔
      py_lower "Cleared" ∈ bank_statuses) ∧
    ((map_bank_status_to_internal "unknown").isSome ↔
      py_lower "unknown" ∈ bank_statuses) :=
  ⟨(C9_bank_status_mapping "Cleared").2 "encaisse" (by rfl),
   (C9_bank_status_mapping "Cleared").1,
   (C9_bank_status_mapping "unknown").1⟩

/-- C8 witness: the theorem instantiated at the concrete score 50. -/
theorem C8_risk_level_witness :
    (risk_level_of_score 50 = .low ↔ (50 : ℚ) < 40) ∧
    (risk_level_of_score 50 = .medium ↔ (40 : ℚ) ≤ 50 ∧ (50 : ℚ) < 60) ∧
    (risk_level_of_score 50 = .high ↔ (60 : ℚ) ≤ 50 ∧ (50 : ℚ) < 80) ∧
    (risk_level_of_score 50 = .critical ↔ (80 : ℚ) ≤ 50) :=
  C8_risk_level_buckets 50 (by norm_num) (by norm_num)

/-- C1 witness: the theorem instantiated at concrete client histories. -/
theorem C1_risk_score_witness :
    (0 ≤ calculate_risk_score 50 3 5000 10 (some 10) 4 ∧
      calculate_risk_score 50 3 5000 10 (some 10) 4 ≤ 100) ∧
    calculate_risk_score 10 3 5000 10 (some 10) 4 ≤
      calculate_risk_score 50 3 5000 10 (some 10) 4 ∧
    (0 ≤ calculate_ai_risk_score 10 2000 3 5 (some 40) 2 ∧
      calculate_ai_risk_score 10 2000 3 5 (some 40) 2 ≤ 100) ∧
    calculate_ai_risk_score 10 2000 3 5 (some 40) 2 ≤
      calculate_ai_risk_score 10 2000 7 5 (some 40) 2 :=
  ⟨C1_risk_score_bounded_and_monotone.1 50 3 5000 10 (some 10) 4 (by norm_num),
   C1_risk_score_bounded_and_monotone.2.1 10 50 3 5000 10 (some 10) 4 (by norm_num),
   C1_risk_score_bounded_and_monotone.2.2.1 10 2000 3 5 (some 40) 2,
   C1_risk_score_bounded_and_monotone.2.2.2 10 2000 3 7 5 (some 40) 2 (by norm_num)⟩

/-! ## DatabaseManager: schema and row types

Each table of `DatabaseManager.init_database` becomes a list of rows.
`TEXT`/`DATE`/`TIMESTAMP` columns are strings, nullable columns are
`Option`, `DECIMAL` amounts are rationals, ids are naturals
(`AUTOINCREMENT` is modelled by the caller supplying the next fresh
rowid). -/

structure BankRow where
  id : ℕ
  name : String
  code : Option String
  createdAt : String
  active : Bool
deriving DecidableEq, Repr

structure BranchRow where
  id : ℕ
  bankId : ℕ
  name : String
  address : Option String
  postalCode : Option String
  phone : Option String
  email : Option String
  createdAt : String
  active : Bool
deriving DecidableEq, Repr

structure ClientRow where
  id : ℕ
  type : String
  name : String
  idNumber : Option String
  vatNumber : Option String
  address : Option String
  phone : Option String
  email : Option String
  createdAt : String
  active : Bool
deriving DecidableEq, Repr

structure UserRow where
  id : ℕ
  username : String
  passwordHash : String
  role : String
  fullName : Option String
  email : Option String
  active : Bool
  createdAt : String
  lastLogin : Option String
deriving DecidableEq, Repr

structure ChequeRow where
  id : ℕ
  amount : ℚ
  currency : String
  issueDate : String
  dueDate : String
  clientId : Option ℕ
  branchId : ℕ
  status : String
  chequeNumber : String
  scanPath : Option String
  depositorName : Option String
  invoiceNumber : Option String
  invoiceDate : Option String
  notes : Option String
  createdAt : String
  updatedAt : String
  createdBy : Option ℕ
deriving DecidableEq, Repr

structure NotificationRow where
  id : ℕ
  type : String
  title : String
  message : String
  chequeId : Option ℕ
  userId : Option ℕ
  read : Bool
  createdAt : String
deriving DecidableEq, Repr

/-- The database state: one list of rows per table the verified operations
touch. -/
structure DBState where
  banks : List BankRow
  branches : List BranchRow
  clients : List ClientRow
  users : List UserRow
  cheques : List ChequeRow
  notifications : List NotificationRow
deriving DecidableEq, Repr

/-- The argument dict of `DatabaseManager.add_cheque`: `cheque_data.get`
keys become `Option` fields, the mandatory `cheque_data[...]` keys plain
fields.  `branch_id` is the integer id of an existing branch (the cheque
form always supplies one). -/
structure ChequeInsert where
  amount : ℚ
  currency : Option String
  issueDate : String
  dueDate : String
  clientId : Option ℕ
  branchId : ℕ
  status : Option String
  chequeNumber : String
  depositorName : Option String
  invoiceNumber : Option String
  invoiceDate : Option String
  notes : Option String
  createdBy : Option ℕ
deriving DecidableEq, Repr

/-- The `UNIQUE(cheque_number, branch_id)` constraint of the `cheques`
schema: the INSERT conflicts when a row with the same pair is present. -/
def cheque_unique_conflict (cheques : List ChequeRow) (number : String)
    (branch : ℕ) : Bool :=
  cheques.any (fun r => r.chequeNumber == number && r.branchId == branch)

/-- Embeds `DatabaseManager.add_cheque` together with SQLite's enforcement
of `UNIQUE(cheque_number, branch_id)`: the method has no handler, so a
constraint violation escapes to the caller as the `.error` branch and the
table is unchanged; otherwise the row is appended (with the source's
defaults `currency='MAD'`, `status='en_attente'`) and `lastrowid` is
returned.  `now` stands for `CURRENT_TIMESTAMP`.
`new_cheque_row` is the row the INSERT statement builds from the dict. -/
def new_cheque_row (nextId : ℕ) (now : String) (d : ChequeInsert) : ChequeRow :=
  { id := nextId
    amount := d.amount
    currency := d.currency.getD "MAD"
    issueDate := d.issueDate
    dueDate := d.dueDate
    clientId := d.clientId
    branchId := d.branchId
    status := d.status.getD "en_attente"
    chequeNumber := d.chequeNumber
    scanPath := none
    depositorName := d.depositorName
    invoiceNumber := d.invoiceNumber
    invoiceDate := d.invoiceDate
    notes := d.notes
    createdAt := now
    updatedAt := now
    createdBy := d.createdBy }

def add_cheque (s : DBState) (nextId : ℕ) (now : String) (d : ChequeInsert) :
    Except String (DBState × ℕ) :=
  if cheque_unique_conflict s.cheques d.chequeNumber d.branchId then
    .error "UNIQUE constraint failed: cheques.cheque_number, cheques.branch_id"
  else
    .ok ({ s with cheques := s.cheques ++ [new_cheque_row nextId now d] }, nextId)

/-- The cheques table as seen by the caller after `add_cheque`: on a
constraint violation the INSERT did not commit, so the table is the old
one. -/
def cheques_after_add (s : DBState) (nextId : ℕ) (now : String)
    (d : ChequeInsert) : List ChequeRow :=
  match add_cheque s nextId now d with
  | .ok (s2, _) => s2.cheques
  | .error _ => s.cheques

/-- Helper: `add_cheque` raises (returns `.error`) exactly when the cheques
table already holds a row with the same cheque number and branch id. -/
theorem add_cheque_error_iff (s : DBState) (nid : ℕ) (now : String)
    (d : ChequeInsert) :
    (∃ msg, add_cheque s nid now d = .error msg) ↔
      ∃ r ∈ s.cheques, r.chequeNumber = d.chequeNumber ∧ r.branchId = d.branchId := by
  unfold add_cheque
  split
  case isTrue h =>
    simp only [cheque_unique_conflict, List.any_eq_true, Bool.and_eq_true,
      beq_iff_eq] at h
    exact ⟨fun _ => h, fun _ => ⟨_, rfl⟩⟩
  case isFalse h =>
    simp only [cheque_unique_conflict, List.any_eq_true, Bool.and_eq_true,
      beq_iff_eq] at h
    constructor
    · rintro ⟨msg, hmsg⟩
      exact absurd hmsg (by simp)
    · intro hex
      exact absurd hex h

/-- Helper: characterisation of a successful `add_cheque`. -/
theorem add_cheque_ok_iff (s : DBState) (nid : ℕ) (now : String)
    (d : ChequeInsert) (s2 : DBState) (rid : ℕ) :
    add_cheque s nid now d = .ok (s2, rid) ↔
      (cheque_unique_conflict s.cheques d.chequeNumber d.branchId = false ∧
        s2 = { s with cheques := s.cheques ++ [new_cheque_row nid now d] } ∧
        rid = nid) := by
  unfold add_cheque
  split
  case isTrue h =>
    simp only [h]
    constructor
    · intro hmsg; exact absurd hmsg (by simp)
    · rintro ⟨hfalse, -⟩; cases hfalse
  case isFalse h =>
    simp only [Bool.not_eq_true] at h
    simp only [h, true_and, Except.ok.injEq, Prod.mk.injEq]
    constructor
    · rintro ⟨h1, h2⟩; exact ⟨h1.symm, h2.symm⟩
    · rintro ⟨h1, h2⟩; exact ⟨h1.symm, h2.symm⟩

/-- C3: `add_cheque` is rejected by the uniqueness constraint, leaving the
cheques table unchanged, exactly when a cheque with the same cheque number
and branch id already exists; a second insert of an identical number+branch
pair is rejected, while the same number under a different branch succeeds
(when that pair was not already taken). -/
theorem C3_add_cheque_uniqueness :
    (∀ (s : DBState) (nid : ℕ) (now : String) (d : ChequeInsert),
        (∃ msg, add_cheque s nid now d = .error msg) ↔
          ∃ r ∈ s.cheques, r.chequeNumber = d.chequeNumber ∧
            r.branchId = d.branchId) ∧
    (∀ (s : DBState) (nid : ℕ) (now : String) (d : ChequeInsert),
        (∃ msg, add_cheque s nid now d = .error msg) →
          cheques_after_add s nid now d = s.cheques) ∧
    (∀ (s : DBState) (nid : ℕ) (now : String) (d : ChequeInsert)
        (s2 : DBState) (rid nid2 : ℕ) (now2 : String),
        add_cheque s nid now d = .ok (s2, rid) →
          ∃ msg, add_cheque s2 nid2 now2 d = .error msg) ∧
    (∀ (s : DBState) (nid : ℕ) (now : String) (d : ChequeInsert)
        (s2 : DBState) (rid nid2 : ℕ) (now2 : String) (d2 : ChequeInsert),
        add_cheque s nid now d = .ok (s2, rid) →
        d2.chequeNumber = d.chequeNumber →
        d2.branchId ≠ d.branchId →
        (¬ ∃ r ∈ s.cheques, r.chequeNumber = d2.chequeNumber ∧
            r.branchId = d2.branchId) →
          ∃ s3 rid2, add_cheque s2 nid2 now2 d2 = .ok (s3, rid2)) := by
  refine ⟨add_cheque_error_iff, ?_, ?_, ?_⟩
  · rintro s nid now d ⟨msg, hmsg⟩
    unfold cheques_after_add
    rw [hmsg]
  · intro s nid now d s2 rid nid2 now2 hok
    rw [add_cheque_ok_iff] at hok
    obtain ⟨-, hs2, -⟩ := hok
    refine (add_cheque_error_iff s2 nid2 now2 d).mpr ?_
    refine ⟨new_cheque_row nid now d, ?_, rfl, rfl⟩
    rw [hs2]
    exact List.mem_append_right _ (List.mem_singleton.mpr rfl)
  · intro s nid now d s2 rid nid2 now2 d2 hok hnum hbr hnodup
    rw [add_cheque_ok_iff] at hok
    obtain ⟨-, hs2, -⟩ := hok
    have hnoerr : ¬ ∃ msg, add_cheque s2 nid2 now2 d2 = .error msg := by
      rw [add_cheque_error_iff]
      rintro ⟨r, hr, hrnum, hrbr⟩
      rw [hs2] at hr
      rcases List.mem_append.mp hr with hin | hnew
      · exact hnodup ⟨r, hin, hrnum, hrbr⟩
      · rw [List.mem_singleton.mp hnew] at hrbr
        have hbr2 : d2.branchId = d.branchId := hrbr.symm.trans rfl
        exact hbr hbr2
    cases hres : add_cheque s2 nid2 now2 d2 with
    | ok p =>
      obtain ⟨s3, r3⟩ := p
      exact ⟨s3, r3, rfl⟩
    | error msg => exact absurd ⟨msg, hres⟩ hnoerr

/-- The spec's example cheque: number "A1", amount 1000, client 5,
branch 2. -/
def example_insert : ChequeInsert :=
  { amount := 1000
    currency := none
    issueDate := "2024-01-01"
    dueDate := "2024-02-01"
    clientId := some 5
    branchId := 2
    status := none
    chequeNumber := "A1"
    depositorName := none
    invoiceNumber := none
    invoiceDate := none
    notes := none
    createdBy := none }

/-- The example cheque re-submitted under a different branch (branch 3). -/
def example_insert_branch3 : ChequeInsert := { example_insert with branchId := 3 }

/-- The empty database. -/
def empty_db : DBState :=
  { banks := [], branches := [], clients := [], users := [], cheques := [],
    notifications := [] }

/-- The database after the example cheque was inserted once. -/
def example_db1 : DBState :=
  { empty_db with
    cheques := [new_cheque_row 1 "2024-01-01 00:00:00" example_insert] }

/-- C3 witness: the theorem applied to the spec's example — inserting
{number "A1", branch 2} a second time is rejected, inserting {"A1",
branch 3} succeeds. -/
theorem C3_add_cheque_witness :
    (∃ msg, add_cheque example_db1 2 "2024-01-02 00:00:00" example_insert =
      .error msg) ∧
    (∃ s3 rid2, add_cheque example_db1 2 "2024-01-02 00:00:00"
      example_insert_branch3 = .ok (s3, rid2)) :=
  ⟨C3_add_cheque_uniqueness.2.2.1 empty_db 1 "2024-01-01 00:00:00"
      example_insert example_db1 1 2 "2024-01-02 00:00:00" (by rfl),
   C3_add_cheque_uniqueness.2.2.2 empty_db 1 "2024-01-01 00:00:00"
      example_insert example_db1 1 2 "2024-01-02 00:00:00"
      example_insert_branch3 (by rfl) (by rfl) (by decide)
      (by simp [empty_db])⟩

/-- C5 counterexample: `DatabaseManager.add_cheque` has no exception
handler, so a failure inside its body does escape to the caller: on the
concrete duplicate insert of the example cheque, the uniqueness violation
is raised (the `.error` branch), not swallowed into a safe default. -/
theorem C5_exception_escape_counterexample :
    add_cheque example_db1 2 "2024-01-02 00:00:00" example_insert =
      .error "UNIQUE constraint failed: cheques.cheque_number, cheques.branch_id" := by
  rfl

/-- C5 (amended): `DatabaseManager.add_cheque` wraps nothing: it either
commits the insert and returns the new rowid, or lets the uniqueness
violation propagate to the caller — it never converts the failure into a
safe default return. -/
theorem C5_add_cheque_propagates (s : DBState) (nid : ℕ) (now : String)
    (d : ChequeInsert) :
    (cheque_unique_conflict s.cheques d.chequeNumber d.branchId = true →
      add_cheque s nid now d =
        .error "UNIQUE constraint failed: cheques.cheque_number, cheques.branch_id") ∧
    (cheque_unique_conflict s.cheques d.chequeNumber d.branchId = false →
      add_cheque s nid now d =
        .ok ({ s with cheques := s.cheques ++ [new_cheque_row nid now d] }, nid)) := by
  constructor <;> intro h <;> simp [add_cheque, h]

/-- C5 witness: the amended theorem applied to the concrete duplicate and
fresh inserts of the example cheque. -/
theorem C5_add_cheque_propagates_witness :
    add_cheque example_db1 2 "2024-01-02 00:00:00" example_insert =
      .error "UNIQUE constraint failed: cheques.cheque_number, cheques.branch_id" ∧
    add_cheque empty_db 1 "2024-01-01 00:00:00" example_insert =
      .ok ({ empty_db with cheques := empty_db.cheques ++
        [new_cheque_row 1 "2024-01-01 00:00:00" example_insert] }, 1) :=
  ⟨(C5_add_cheque_propagates example_db1 2 "2024-01-02 00:00:00"
      example_insert).1 (by decide),
   (C5_add_cheque_propagates empty_db 1 "2024-01-01 00:00:00"
      example_insert).2 (by decide)⟩

/-! ## DatabaseManager: status updates and notifications -/

/-- The `status_messages` dict of
`DatabaseManager._create_status_notification`, as a lookup. -/
def status_message (newStatus : String) : Option String :=
  if newStatus = "encaisse" then some "Chèque encaissé avec succès"
  else if newStatus = "rejete" then some "Chèque rejeté par la banque"
  else if newStatus = "impaye" then some "Chèque marqué comme impayé"
  else if newStatus = "annule" then some "Chèque annulé"
  else none

/-- Embeds `DatabaseManager._create_status_notification`: inserts one
`status_change` notification when `new_status` has an entry in
`status_messages`, and nothing otherwise. -/
def create_status_notification (notifs : List NotificationRow) (nid : ℕ)
    (chequeId : ℕ) (newStatus : String) (userId : ℕ) (now : String) :
    List NotificationRow :=
  match status_message newStatus with
  | some msg => notifs ++
      [{ id := nid
         type := "status_change"
         title := "Changement de statut"
         message := msg
         chequeId := some chequeId
         userId := some userId
         read := false
         createdAt := now }]
  | none => notifs

/-- Embeds `DatabaseManager.update_cheque_status`: the UPDATE sets the
status and `updated_at` of the matching cheque; the notification is created
only when `cursor.rowcount > 0 and user_id` — Python truthiness, so a
`None` (the parameter's default) or zero `user_id` skips it.  Returns the
method's `rowcount > 0` flag with the new state. -/
def update_cheque_status (s : DBState) (nid : ℕ) (now : String)
    (chequeId : ℕ) (newStatus : String) (userId : Option ℕ) :
    Bool × DBState :=
  let rowcount := s.cheques.countP (fun r => r.id == chequeId)
  let cheques2 := s.cheques.map
    (fun r => if r.id = chequeId then { r with status := newStatus, updatedAt := now } else r)
  let notifs2 :=
    match userId with
    | some u =>
        if 0 < rowcount ∧ u ≠ 0 then
          create_status_notification s.notifications nid chequeId newStatus u now
        else s.notifications
    | none => s.notifications
  (decide (0 < rowcount), { s with cheques := cheques2, notifications := notifs2 })

/-- C6 counterexample: with a cheque present, the call
`update_cheque_status(cheque_id=1, new_status='encaisse')` — the default
`user_id=None` — performs the terminal transition (the UPDATE matches and
the status becomes `encaisse`) yet inserts no notification row, so the
transition leaves the notification trail without an entry. -/
theorem C6_notification_counterexample :
    (update_cheque_status example_db1 1 "2024-01-03 00:00:00" 1 "encaisse"
        none).1 = true ∧
    ((update_cheque_status example_db1 1 "2024-01-03 00:00:00" 1 "encaisse"
        none).2).cheques.map (fun r => r.status) = ["encaisse"] ∧
    ((update_cheque_status example_db1 1 "2024-01-03 00:00:00" 1 "encaisse"
        none).2).notifications = [] := by
  refine ⟨by decide, by decide, by decide⟩

/-- C6 (amended): a transition of an existing cheque to a terminal status
(`encaisse`, `rejete`, `annule`) inserts exactly one notification row —
provided a non-falsy `user_id` is passed; with the default `user_id=None`
(or 0) no notification row is inserted at all. -/
theorem C6_notification_amended :
    (∀ (s : DBState) (nid : ℕ) (now : String) (cid : ℕ) (st : String) (u : ℕ),
        0 < s.cheques.countP (fun r => r.id == cid) →
        u ≠ 0 →
        (st = "encaisse" ∨ st = "rejete" ∨ st = "annule") →
        ∃ msg, (update_cheque_status s nid now cid st (some u)).2.notifications =
          s.notifications ++
            [{ id := nid
               type := "status_change"
               title := "Changement de statut"
               message := msg
               chequeId := some cid
               userId := some u
               read := false
               createdAt := now }]) ∧
    (∀ (s : DBState) (nid : ℕ) (now : String) (cid : ℕ) (st : String),
        (update_cheque_status s nid now cid st none).2.notifications =
          s.notifications) := by
  constructor
  · intro s nid now cid st u hcount hu hst
    unfold update_cheque_status
    dsimp only
    rw [if_pos ⟨hcount, hu⟩]
    rcases hst with h | h | h <;> subst h <;>
      exact ⟨_, by rfl⟩
  · intro s nid now cid st
    rfl

/-- C6 witness: the amended theorem applied to the concrete state holding
the example cheque, transitioning it to `encaisse` as user 7, and the
`user_id=None` case on the same state. -/
theorem C6_notification_witness :
    (∃ msg, (update_cheque_status example_db1 2 "2024-01-03 00:00:00" 1
        "encaisse" (some 7)).2.notifications =
      example_db1.notifications ++
        [{ id := 2
           type := "status_change"
           title := "Changement de statut"
           message := msg
           chequeId := some 1
           userId := some 7
           read := false
           createdAt := "2024-01-03 00:00:00" }]) ∧
    (update_cheque_status example_db1 2 "2024-01-03 00:00:00" 1 "encaisse"
        none).2.notifications = example_db1.notifications :=
  ⟨C6_notification_amended.1 example_db1 2 "2024-01-03 00:00:00" 1
      "encaisse" 7 (by decide) (by decide) (Or.inl rfl),
   C6_notification_amended.2 example_db1 2 "2024-01-03 00:00:00" 1 "encaisse"⟩

/-! ## Soft deletes -/

/-- Embeds `DatabaseManager.delete_bank`:
`UPDATE banks SET active = FALSE WHERE id = ?`, returning `rowcount > 0`. -/
def delete_bank (s : DBState) (bankId : ℕ) : Bool × DBState :=
  (decide (0 < s.banks.countP (fun r => r.id == bankId)),
   { s with banks :=
      s.banks.map (fun r => if r.id = bankId then { r with active := false } else r) })

/-- Embeds `SettingsComponent.delete_branch` (src/ui/components/settings.py):
`UPDATE branches SET active = FALSE WHERE id = ?`. -/
def delete_branch (s : DBState) (branchId : ℕ) : DBState :=
  { s with branches :=
      s.branches.map (fun r => if r.id = branchId then { r with active := false } else r) }

/-- Embeds `SettingsComponent.delete_user` (src/ui/components/settings.py):
`UPDATE users SET active = FALSE WHERE id = ?`. -/
def delete_user (s : DBState) (userId : ℕ) : DBState :=
  { s with users :=
      s.users.map (fun r => if r.id = userId then { r with active := false } else r) }

/-- Modelled from the spec: the repository has no client-delete code under
src/, but the spec says soft-deleting a client flips its active flag
without removing dependent cheque rows, the same
`UPDATE clients SET active = FALSE WHERE id = ?` shape as the other three
soft deletes. -/
def delete_client (s : DBState) (clientId : ℕ) : DBState :=
  { s with clients :=
      s.clients.map (fun r => if r.id = clientId then { r with active := false } else r) }

/-- C7: each soft delete flips the matching row's active flag and changes
nothing else — the targeted row keeps every other field, rows with a
different id are untouched, the table keeps its length, and every other
table (in particular the dependent cheques) is exactly the old one. -/
theorem C7_soft_delete_frame :
    (∀ (s : DBState) (bid i : ℕ) (r : BankRow) (r2 : BankRow),
        s.banks[i]? = some r → ((delete_bank s bid).2).banks[i]? = some r2 →
          (r.id = bid → r2 = { r with active := false }) ∧
          (r.id ≠ bid → r2 = r)) ∧
    (∀ (s : DBState) (bid : ℕ),
        ((delete_bank s bid).2).banks.length = s.banks.length ∧
        ((delete_bank s bid).2).branches = s.branches ∧
        ((delete_bank s bid).2).clients = s.clients ∧
        ((delete_bank s bid).2).users = s.users ∧
        ((delete_bank s bid).2).cheques = s.cheques ∧
        ((delete_bank s bid).2).notifications = s.notifications) ∧
    (∀ (s : DBState) (bid i : ℕ) (r : BranchRow) (r2 : BranchRow),
        s.branches[i]? = some r → (delete_branch s bid).branches[i]? = some r2 →
          (r.id = bid → r2 = { r with active := false }) ∧
          (r.id ≠ bid → r2 = r)) ∧
    (∀ (s : DBState) (bid : ℕ),
        (delete_branch s bid).branches.length = s.branches.length ∧
        (delete_branch s bid).banks = s.banks ∧
        (delete_branch s bid).clients = s.clients ∧
        (delete_branch s bid).users = s.users ∧
        (delete_branch s bid).cheques = s.cheques ∧
        (delete_branch s bid).notifications = s.notifications) ∧
    (∀ (s : DBState) (uid i : ℕ) (r : UserRow) (r2 : UserRow),
        s.users[i]? = some r → (delete_user s uid).users[i]? = some r2 →
          (r.id = uid → r2 = { r with active := false }) ∧
          (r.id ≠ uid → r2 = r)) ∧
    (∀ (s : DBState) (uid : ℕ),
        (delete_user s uid).users.length = s.users.length ∧
        (delete_user s uid).banks = s.banks ∧
        (delete_user s uid).branches = s.branches ∧
        (delete_user s uid).clients = s.clients ∧
        (delete_user s uid).cheques = s.cheques ∧
        (delete_user s uid).notifications = s.notifications) ∧
    (∀ (s : DBState) (cid i : ℕ) (r : ClientRow) (r2 : ClientRow),
        s.clients[i]? = some r → (delete_client s cid).clients[i]? = some r2 →
          (r.id = cid → r2 = { r with active := false }) ∧
          (r.id ≠ cid → r2 = r)) ∧
    (∀ (s : DBState) (cid : ℕ),
        (delete_client s cid).clients.length = s.clients.length ∧
        (delete_client s cid).banks = s.banks ∧
        (delete_client s cid).branches = s.branches ∧
        (delete_client s cid).users = s.users ∧
        (delete_client s cid).cheques = s.cheques ∧
        (delete_client s cid).notifications = s.notifications) := by
  refine ⟨?_, ?_, ?_, ?_, ?_, ?_, ?_, ?_⟩
  · intro s bid i r r2 hr hr2
    unfold delete_bank at hr2
    dsimp only at hr2
    rw [List.getElem?_map, hr] at hr2
    simp only [Option.map_some', Option.some.injEq] at hr2
    constructor
    · intro hid
      rw [← hr2, if_pos hid]
    · intro hid
      rw [← hr2, if_neg hid]
  · intro s bid
    unfold delete_bank
    exact ⟨List.length_map _ _, rfl, rfl, rfl, rfl, rfl⟩
  · intro s bid i r r2 hr hr2
    unfold delete_branch at hr2
    dsimp only at hr2
    rw [List.getElem?_map, hr] at hr2
    simp only [Option.map_some', Option.some.injEq] at hr2
    exact ⟨fun hid => by rw [← hr2, if_pos hid],
           fun hid => by rw [← hr2, if_neg hid]⟩
  · intro s bid
    unfold delete_branch
    exact ⟨List.length_map _ _, rfl, rfl, rfl, rfl, rfl⟩
  · intro s uid i r r2 hr hr2
    unfold delete_user at hr2
    dsimp only at hr2
    rw [List.getElem?_map, hr] at hr2
    simp only [Option.map_some', Option.some.injEq] at hr2
    exact ⟨fun hid => by rw [← hr2, if_pos hid],
           fun hid => by rw [← hr2, if_neg hid]⟩
  · intro s uid
    unfold delete_user
    exact ⟨List.length_map _ _, rfl, rfl, rfl, rfl, rfl⟩
  · intro s cid i r r2 hr hr2
    unfold delete_client at hr2
    dsimp only at hr2
    rw [List.getElem?_map, hr] at hr2
    simp only [Option.map_some', Option.some.injEq] at hr2
    exact ⟨fun hid => by rw [← hr2, if_pos hid],
           fun hid => by rw [← hr2, if_neg hid]⟩
  · intro s cid
    unfold delete_client
    exact ⟨List.length_map _ _, rfl, rfl, rfl, rfl, rfl⟩

/-- Concrete rows for exercising the soft deletes. -/
def example_bank : BankRow :=
  { id := 1, name := "Attijariwafa", code := some "AWB",
    createdAt := "2024-01-01", active := true }

def example_bank2 : BankRow :=
  { id := 2, name := "BMCE", code := none,
    createdAt := "2024-01-01", active := true }

def example_branch : BranchRow :=
  { id := 1, bankId := 1, name := "Casablanca Centre", address := none,
    postalCode := none, phone := none, email := none,
    createdAt := "2024-01-01", active := true }

def example_user : UserRow :=
  { id := 1, username := "admin", passwordHash := "h", role := "admin",
    fullName := none, email := none, active := true,
    createdAt := "2024-01-01", lastLogin := none }

def example_client : ClientRow :=
  { id := 5, type := "personne", name := "Ali", idNumber := none,
    vatNumber := none, address := none, phone := none, email := none,
    createdAt := "2024-01-01", active := true }

/-- A populated database: two banks, one branch, one client, one user, and
the example cheque (a dependent row of all of them). -/
def example_db2 : DBState :=
  { banks := [example_bank, example_bank2]
    branches := [example_branch]
    clients := [example_client]
    users := [example_user]
    cheques := [new_cheque_row 1 "2024-01-01 00:00:00" example_insert]
    notifications := [] }

/-- C7 witness: the frame theorem applied to the populated database —
deleting bank 1 flips its row and leaves bank 2 alone, and each of the
four soft deletes leaves the dependent cheques table untouched. -/
theorem C7_soft_delete_witness :
    ((example_bank.id = 1 →
        { example_bank with active := false } = { example_bank with active := false }) ∧
      (example_bank.id ≠ 1 →
        { example_bank with active := false } = example_bank)) ∧
    ((example_bank2.id = 1 → example_bank2 = { example_bank2 with active := false }) ∧
      (example_bank2.id ≠ 1 → example_bank2 = example_bank2)) ∧
    ((delete_bank example_db2 1).2).cheques = example_db2.cheques ∧
    (delete_branch example_db2 1).cheques = example_db2.cheques ∧
    (delete_user example_db2 1).cheques = example_db2.cheques ∧
    (delete_client example_db2 5).cheques = example_db2.cheques :=
  ⟨C7_soft_delete_frame.1 example_db2 1 0 example_bank
      { example_bank with active := false } (by rfl) (by rfl),
   C7_soft_delete_frame.1 example_db2 1 1 example_bank2 example_bank2
      (by rfl) (by rfl),
   (C7_soft_delete_frame.2.1 example_db2 1).2.2.2.2.1,
   (C7_soft_delete_frame.2.2.2.1 example_db2 1).2.2.2.2.1,
   (C7_soft_delete_frame.2.2.2.2.2.1 example_db2 1).2.2.2.2.1,
   (C7_soft_delete_frame.2.2.2.2.2.2.2 example_db2 5).2.2.2.2.1⟩

/-! ## SecurityManager: roles and permissions -/

/-- The `UserRole` enum of src/security/security_manager.py. -/
inductive UserRole where
  | admin
  | manager
  | employee
  | readonly
deriving DecidableEq, Repr

/-- Python's `UserRole(user_role)` constructor: returns the member whose
value equals the string, and raises `ValueError` (here `none`) otherwise. -/
def user_role_of_string (s : String) : Option UserRole :=
  if s = "admin" then some .admin
  else if s = "manager" then some .manager
  else if s = "employee" then some .employee
  else if s = "readonly" then some .readonly
  else none

/-- Embeds `SecurityManager._load_role_permissions`: the static
role-to-permission table. -/
def role_permissions : UserRole → List String
  | .admin =>
      ["cheque.create", "cheque.read", "cheque.update", "cheque.delete",
       "client.create", "client.read", "client.update", "client.delete",
       "bank.create", "bank.read", "bank.update", "bank.delete",
       "user.create", "user.read", "user.update", "user.delete",
       "report.generate", "report.export",
       "system.backup", "system.restore", "system.configure",
       "audit.read"]
  | .manager =>
      ["cheque.create", "cheque.read", "cheque.update",
       "client.create", "client.read", "client.update",
       "bank.read",
       "report.generate", "report.export",
       "system.backup"]
  | .employee =>
      ["cheque.create", "cheque.read", "cheque.update",
       "client.read", "client.update",
       "bank.read",
       "report.generate"]
  | .readonly =>
      ["cheque.read",
       "client.read",
       "bank.read",
       "report.generate"]

/-- Embeds `SecurityManager.check_user_permissions`: parse the role string
through the enum (a `ValueError` returns `False`), then test membership in
the role's permission list. -/
def check_user_permissions (userRole requiredPermission : String) : Bool :=
  match user_role_of_string userRole with
  | some r => (role_permissions r).contains requiredPermission
  | none => false

/-- The four role values the `users` table's
`CHECK(role IN ('admin', 'comptable', 'agent', 'readonly'))` constraint
allows (`DatabaseManager.init_database`). -/
def db_allowed_roles : List String := ["admin", "comptable", "agent", "readonly"]

/-- C10: `check_user_permissions` returns false for every permission when
the role is `comptable` or `agent` — both allowed by the users table's
CHECK constraint — because the static table only knows admin, manager,
employee and readonly; so every database role other than admin and
readonly holds no permission at all. -/
theorem C10_unmapped_roles_no_permissions :
    (∀ p, check_user_permissions "comptable" p = false) ∧
    (∀ p, check_user_permissions "agent" p = false) ∧
    "comptable" ∈ db_allowed_roles ∧
    "agent" ∈ db_allowed_roles ∧
    (∀ role ∈ db_allowed_roles, role ≠ "admin" → role ≠ "readonly" →
      ∀ p, check_user_permissions role p = false) := by
  refine ⟨fun p => rfl, fun p => rfl, by decide, by decide, ?_⟩
  intro role hrole h1 h2 p
  simp only [db_allowed_roles, List.mem_cons, List.mem_singleton,
    List.not_mem_nil, or_false] at hrole
  rcases hrole with h | h | h | h
  · exact absurd h h1
  · subst h; rfl
  · subst h; rfl
  · exact absurd h h2

/-- C10 witness: the theorem applied to the role "comptable" and the
permission "cheque.read" (which admin does hold). -/
theorem C10_unmapped_roles_witness :
    check_user_permissions "comptable" "cheque.read" = false ∧
    check_user_permissions "agent" "cheque.read" = false :=
  ⟨C10_unmapped_roles_no_permissions.2.2.2.2 "comptable" (by decide)
      (by decide) (by decide) "cheque.read",
   C10_unmapped_roles_no_permissions.2.1 "cheque.read"⟩

/-! ## Duplicate-similarity scoring

Two scorers exist: the pairwise one in
`AdvancedAnalytics._calculate_similarity_score` (fields of the SQL
self-join row) and the candidate-versus-pool one in
`SmartAutomation._calculate_cheque_similarity` (two dicts). -/

/-- One cheque's view in the analytics self-join row: number, amount,
client, and its `created_at` parsed as a day count (`none` when parsing
raises, the `except: pass` branch). -/
structure DupRecord where
  chequeNumber : String
  amount : ℚ
  clientId : ℕ
  createdDays : Option ℤ
deriving DecidableEq, Repr

/-- The `abs((date1 - date2).days)` computation at day granularity; `none`
when either date fails to parse. -/
def date_days_diff (d1 d2 : Option ℤ) : Option ℕ :=
  match d1, d2 with
  | some a, some b => some (a - b).natAbs
  | _, _ => none

/-- Embeds `AdvancedAnalytics._calculate_similarity_score`: number match
0.5, amount match 0.3, same client 0.2, date proximity 0.2 within one day
else 0.1 within seven days, capped at 1. -/
def calculate_similarity_score (c1 c2 : DupRecord) : ℚ :=
  let score : ℚ :=
    (if c1.chequeNumber = c2.chequeNumber then 5/10 else 0) +
    (if c1.amount = c2.amount then 3/10 else 0) +
    (if c1.clientId = c2.clientId then 2/10 else 0) +
    (match date_days_diff c1.createdDays c2.createdDays with
     | some dd => if dd ≤ 1 then (2 : ℚ)/10 else if dd ≤ 7 then 1/10 else 0
     | none => 0)
  min score 1

/-- One cheque dict in `SmartAutomation._calculate_cheque_similarity`:
`.get` on a possibly missing key yields `none`; the amount is taken with
default 0 by the source, so it is a plain rational here. -/
structure ChequeDict where
  chequeNumber : Option String
  amount : ℚ
  clientId : Option ℕ
  branchId : Option ℕ
deriving DecidableEq, Repr

/-- Embeds `SmartAutomation._calculate_cheque_similarity`: number match
0.5, amount within 0.01 gives 0.3, same client 0.15, same branch 0.05,
capped at 1. -/
def calculate_cheque_similarity (c1 c2 : ChequeDict) : ℚ :=
  let score : ℚ :=
    (if c1.chequeNumber = c2.chequeNumber then 5/10 else 0) +
    (if |c1.amount - c2.amount| < 1/100 then 3/10 else 0) +
    (if c1.clientId = c2.clientId then 15/100 else 0) +
    (if c1.branchId = c2.branchId then 5/100 else 0)
  min score 1

/-- The date-proximity grade of the pairwise scorer: 2 when the cheques are
within one day, 1 within seven days, 0 otherwise (or unparseable). -/
def date_grade (d1 d2 : Option ℤ) : ℕ :=
  match date_days_diff d1 d2 with
  | some dd => if dd ≤ 1 then 2 else if dd ≤ 7 then 1 else 0
  | none => 0

/-- The sub-criteria a pair satisfies under the pairwise scorer, with the
date criterion graded. -/
structure SimCriteria where
  numberMatch : Bool
  amountMatch : Bool
  clientMatch : Bool
  dateGrade : ℕ
deriving DecidableEq, Repr

def sim_criteria (c1 c2 : DupRecord) : SimCriteria :=
  { numberMatch := decide (c1.chequeNumber = c2.chequeNumber)
    amountMatch := decide (c1.amount = c2.amount)
    clientMatch := decide (c1.clientId = c2.clientId)
    dateGrade := date_grade c1.createdDays c2.createdDays }

/-- One pair's criteria dominate another's: every criterion the second
satisfies, the first satisfies at an equal or higher grade. -/
def criteria_le (a b : SimCriteria) : Prop :=
  (a.numberMatch = true → b.numberMatch = true) ∧
  (a.amountMatch = true → b.amountMatch = true) ∧
  (a.clientMatch = true → b.clientMatch = true) ∧
  a.dateGrade ≤ b.dateGrade

/-- The sub-criteria under the pool scorer. -/
structure PoolCriteria where
  numberMatch : Bool
  amountMatch : Bool
  clientMatch : Bool
  branchMatch : Bool
deriving DecidableEq, Repr

def pool_criteria (c1 c2 : ChequeDict) : PoolCriteria :=
  { numberMatch := decide (c1.chequeNumber = c2.chequeNumber)
    amountMatch := decide (|c1.amount - c2.amount| < 1/100)
    clientMatch := decide (c1.clientId = c2.clientId)
    branchMatch := decide (c1.branchId = c2.branchId) }

def pool_criteria_le (a b : PoolCriteria) : Prop :=
  (a.numberMatch = true → b.numberMatch = true) ∧
  (a.amountMatch = true → b.amountMatch = true) ∧
  (a.clientMatch = true → b.clientMatch = true) ∧
  (a.branchMatch = true → b.branchMatch = true)

/-- Helper: an `if`-weight is monotone under implication of its guard. -/
theorem if_weight_le {P Q : Prop} [Decidable P] [Decidable Q] (v : ℚ)
    (hv : 0 ≤ v) (h : P → Q) :
    (if P then v else 0) ≤ (if Q then v else 0) := by
  by_cases hp : P
  · rw [if_pos hp, if_pos (h hp)]
  · rw [if_neg hp]
    split <;> [exact hv; exact le_refl 0]

/-- Helper: an `if`-weight with a non-negative value is non-negative. -/
theorem if_weight_nonneg {P : Prop} [Decidable P] (v : ℚ) (hv : 0 ≤ v) :
    0 ≤ if P then v else 0 := by
  split <;> [exact hv; exact le_refl 0]

/-- Helper: an `if`-weight is at most its value. -/
theorem if_weight_le_val {P : Prop} [Decidable P] (v : ℚ) (hv : 0 ≤ v) :
    (if P then v else 0) ≤ v := by
  split <;> [exact le_refl v; exact hv]

/-- Helper: the date term of the pairwise scorer, as a function of the
grade. -/
theorem date_term_eq_grade (d1 d2 : Option ℤ) :
    (match date_days_diff d1 d2 with
     | some dd => if dd ≤ 1 then (2 : ℚ)/10 else if dd ≤ 7 then 1/10 else 0
     | none => 0) =
    (if 2 ≤ date_grade d1 d2 then (2 : ℚ)/10
     else if 1 ≤ date_grade d1 d2 then 1/10 else 0) := by
  unfold date_grade
  cases h : date_days_diff d1 d2 with
  | none => norm_num
  | some dd =>
    dsimp only
    split_ifs <;> simp_all

/-- Helper: the date term is non-negative and at most 2/10. -/
theorem date_term_bounds (d1 d2 : Option ℤ) :
    0 ≤ (match date_days_diff d1 d2 with
          | some dd => if dd ≤ 1 then (2 : ℚ)/10 else if dd ≤ 7 then 1/10 else 0
          | none => 0) ∧
    (match date_days_diff d1 d2 with
      | some dd => if dd ≤ 1 then (2 : ℚ)/10 else if dd ≤ 7 then 1/10 else 0
      | none => 0) ≤ 2/10 := by
  cases date_days_diff d1 d2 with
  | none => norm_num
  | some dd =>
    dsimp only
    split_ifs <;> norm_num

/-- C2 helper: the pairwise similarity score lies in [0, 1]. -/
theorem calculate_similarity_score_bounds (c1 c2 : DupRecord) :
    0 ≤ calculate_similarity_score c1 c2 ∧
      calculate_similarity_score c1 c2 ≤ 1 := by
  unfold calculate_similarity_score
  dsimp only
  constructor
  · apply le_min _ (by norm_num)
    have h1 := if_weight_nonneg (P := c1.chequeNumber = c2.chequeNumber)
      ((5 : ℚ)/10) (by norm_num)
    have h2 := if_weight_nonneg (P := c1.amount = c2.amount)
      ((3 : ℚ)/10) (by norm_num)
    have h3 := if_weight_nonneg (P := c1.clientId = c2.clientId)
      ((2 : ℚ)/10) (by norm_num)
    have h4 := (date_term_bounds c1.createdDays c2.createdDays).1
    linarith
  · exact min_le_right _ _

/-- C2 helper: the pool similarity score lies in [0, 1]. -/
theorem calculate_cheque_similarity_bounds (c1 c2 : ChequeDict) :
    0 ≤ calculate_cheque_similarity c1 c2 ∧
      calculate_cheque_similarity c1 c2 ≤ 1 := by
  unfold calculate_cheque_similarity
  dsimp only
  constructor
  · apply le_min _ (by norm_num)
    have h1 := if_weight_nonneg (P := c1.chequeNumber = c2.chequeNumber)
      ((5 : ℚ)/10) (by norm_num)
    have h2 := if_weight_nonneg (P := |c1.amount - c2.amount| < 1/100)
      ((3 : ℚ)/10) (by norm_num)
    have h3 := if_weight_nonneg (P := c1.clientId = c2.clientId)
      ((15 : ℚ)/100) (by norm_num)
    have h4 := if_weight_nonneg (P := c1.branchId = c2.branchId)
      ((5 : ℚ)/100) (by norm_num)
    linarith
  · exact min_le_right _ _

/-- C2 helper: the pairwise score is monotone in the satisfied
sub-criteria. -/
theorem calculate_similarity_score_mono (p1 p2 q1 q2 : DupRecord)
    (h : criteria_le (sim_criteria p1 p2) (sim_criteria q1 q2)) :
    calculate_similarity_score p1 p2 ≤ calculate_similarity_score q1 q2 := by
  obtain ⟨hn, ha, hc, hd⟩ := h
  simp only [sim_criteria, decide_eq_true_eq] at hn ha hc hd
  unfold calculate_similarity_score
  dsimp only
  apply min_le_min _ le_rfl
  have t1 := if_weight_le ((5 : ℚ)/10) (by norm_num) hn
  have t2 := if_weight_le ((3 : ℚ)/10) (by norm_num) ha
  have t3 := if_weight_le ((2 : ℚ)/10) (by norm_num) hc
  have t4 : (match date_days_diff p1.createdDays p2.createdDays with
      | some dd => if dd ≤ 1 then (2 : ℚ)/10 else if dd ≤ 7 then 1/10 else 0
      | none => 0) ≤
      (match date_days_diff q1.createdDays q2.createdDays with
      | some dd => if dd ≤ 1 then (2 : ℚ)/10 else if dd ≤ 7 then 1/10 else 0
      | none => 0) := by
    rw [date_term_eq_grade, date_term_eq_grade]
    split_ifs <;> first | omega | norm_num
  linarith

/-- C2 helper: the pool score is monotone in the satisfied sub-criteria. -/
theorem calculate_cheque_similarity_mono (p1 p2 q1 q2 : ChequeDict)
    (h : pool_criteria_le (pool_criteria p1 p2) (pool_criteria q1 q2)) :
    calculate_cheque_similarity p1 p2 ≤ calculate_cheque_similarity q1 q2 := by
  obtain ⟨hn, ha, hc, hb⟩ := h
  simp only [pool_criteria, decide_eq_true_eq] at hn ha hc hb
  unfold calculate_cheque_similarity
  dsimp only
  apply min_le_min _ le_rfl
  have t1 := if_weight_le ((5 : ℚ)/10) (by norm_num) hn
  have t2 := if_weight_le ((3 : ℚ)/10) (by norm_num) ha
  have t3 := if_weight_le ((15 : ℚ)/100) (by norm_num) hc
  have t4 := if_weight_le ((5 : ℚ)/100) (by norm_num) hb
  linarith

/-- C2: both duplicate-similarity scores lie in [0, 1], and each is
monotone in the satisfied sub-criteria: a pair whose criteria dominate
another's (every satisfied criterion satisfied at an equal or higher
grade) scores at least as much. -/
theorem C2_similarity_bounded_and_monotone :
    (∀ c1 c2 : DupRecord,
        0 ≤ calculate_similarity_score c1 c2 ∧
          calculate_similarity_score c1 c2 ≤ 1) ∧
    (∀ c1 c2 : ChequeDict,
        0 ≤ calculate_cheque_similarity c1 c2 ∧
          calculate_cheque_similarity c1 c2 ≤ 1) ∧
    (∀ p1 p2 q1 q2 : DupRecord,
        criteria_le (sim_criteria p1 p2) (sim_criteria q1 q2) →
          calculate_similarity_score p1 p2 ≤ calculate_similarity_score q1 q2) ∧
    (∀ p1 p2 q1 q2 : ChequeDict,
        pool_criteria_le (pool_criteria p1 p2) (pool_criteria q1 q2) →
          calculate_cheque_similarity p1 p2 ≤ calculate_cheque_similarity q1 q2) :=
  ⟨calculate_similarity_score_bounds, calculate_cheque_similarity_bounds,
   calculate_similarity_score_mono, calculate_cheque_similarity_mono⟩

/-- Concrete record pairs for the similarity witnesses: (dup_a, dup_b)
match on amount and client only; (dup_a, dup_c) additionally match the
number and are one day apart. -/
def dup_a : DupRecord := { chequeNumber := "A1", amount := 1000, clientId := 5, createdDays := some 0 }

def dup_b : DupRecord := { chequeNumber := "B2", amount := 1000, clientId := 5, createdDays := some 40 }

def dup_c : DupRecord := { chequeNumber := "A1", amount := 1000, clientId := 5, createdDays := some 1 }

def dict_a : ChequeDict := { chequeNumber := some "A1", amount := 1000, clientId := some 5, branchId := some 2 }

def dict_b : ChequeDict := { chequeNumber := some "B9", amount := 1000, clientId := some 5, branchId := none }

def dict_c : ChequeDict := { chequeNumber := some "A1", amount := 1000, clientId := some 5, branchId := some 2 }

/-- C2 witness: the theorem applied to concrete pairs — (dup_a, dup_c)
dominates (dup_a, dup_b) and scores at least as much, same for the pool
scorer; bounds at (dup_a, dup_b). -/
theorem C2_similarity_witness :
    (0 ≤ calculate_similarity_score dup_a dup_b ∧
      calculate_similarity_score dup_a dup_b ≤ 1) ∧
    (0 ≤ calculate_cheque_similarity dict_a dict_b ∧
      calculate_cheque_similarity dict_a dict_b ≤ 1) ∧
    calculate_similarity_score dup_a dup_b ≤
      calculate_similarity_score dup_a dup_c ∧
    calculate_cheque_similarity dict_a dict_b ≤
      calculate_cheque_similarity dict_a dict_c :=
  ⟨C2_similarity_bounded_and_monotone.1 dup_a dup_b,
   C2_similarity_bounded_and_monotone.2.1 dict_a dict_b,
   C2_similarity_bounded_and_monotone.2.2.1 dup_a dup_b dup_a dup_c
      (by refine ⟨?_, ?_, ?_, ?_⟩ <;> decide),
   C2_similarity_bounded_and_monotone.2.2.2 dict_a dict_b dict_a dict_c
      (by refine ⟨?_, ?_, ?_, ?_⟩ <;>
        simp [pool_criteria, dict_a, dict_b, dict_c])⟩

/-- The weighting scheme the spec states for the candidate-versus-pool
scorer: number match 0.5, amount match 0.3, client match 0.15, branch
match 0.05, capped at 1. -/
def spec_pool_weighted_sum (numberMatch amountMatch clientMatch branchMatch : Bool) : ℚ :=
  min ((if numberMatch then (5 : ℚ)/10 else 0) +
       (if amountMatch then 3/10 else 0) +
       (if clientMatch then 15/100 else 0) +
       (if branchMatch then 5/100 else 0)) 1

/-- The weighting scheme the spec states for the pairwise scorer: number
match 0.5, amount match 0.3, client match 0.2, date proximity 0.2 within
one day else 0.1 within seven, capped at 1. -/
def spec_pairwise_weighted_sum (numberMatch amountMatch clientMatch : Bool)
    (dateGrade : ℕ) : ℚ :=
  min ((if numberMatch then (5 : ℚ)/10 else 0) +
       (if amountMatch then 3/10 else 0) +
       (if clientMatch then 2/10 else 0) +
       (if 2 ≤ dateGrade then (2 : ℚ)/10 else if 1 ≤ dateGrade then 1/10 else 0)) 1

/-- A pair matching on the client only, far apart in amount and date. -/
def dup_e : DupRecord :=
  { chequeNumber := "B2", amount := 2000, clientId := 5, createdDays := some 100 }

def dict_e : ChequeDict :=
  { chequeNumber := some "B2", amount := 2000, clientId := some 5, branchId := some 3 }

/-- C4: the two modules use the two distinct weighting schemes the spec
describes — `_calculate_cheque_similarity` is exactly the
0.5/0.3/0.15/0.05 weighted sum of its sub-criteria and
`_calculate_similarity_score` exactly the 0.5/0.3/0.2/0.1–0.2 one — and
the two schemes are not extensionally equal: on a pair matching only the
client they give 0.2 and 0.15. -/
theorem C4_two_weighting_schemes :
    (∀ c1 c2 : ChequeDict,
        calculate_cheque_similarity c1 c2 =
          spec_pool_weighted_sum (pool_criteria c1 c2).numberMatch
            (pool_criteria c1 c2).amountMatch
            (pool_criteria c1 c2).clientMatch
            (pool_criteria c1 c2).branchMatch) ∧
    (∀ c1 c2 : DupRecord,
        calculate_similarity_score c1 c2 =
          spec_pairwise_weighted_sum (sim_criteria c1 c2).numberMatch
            (sim_criteria c1 c2).amountMatch
            (sim_criteria c1 c2).clientMatch
            (sim_criteria c1 c2).dateGrade) ∧
    spec_pairwise_weighted_sum false false true 0 ≠
      spec_pool_weighted_sum false false true false ∧
    calculate_similarity_score dup_a dup_e = 2/10 ∧
    calculate_cheque_similarity dict_a dict_e = 15/100 := by
  refine ⟨?_, ?_, ?_, ?_, ?_⟩
  · intro c1 c2
    unfold calculate_cheque_similarity spec_pool_weighted_sum pool_criteria
    simp only [decide_eq_true_eq]
  · intro c1 c2
    unfold calculate_similarity_score
    dsimp only
    rw [date_term_eq_grade]
    unfold spec_pairwise_weighted_sum sim_criteria
    simp only [decide_eq_true_eq]
  · unfold spec_pairwise_weighted_sum spec_pool_weighted_sum
    norm_num
  · unfold calculate_similarity_score dup_a dup_e date_days_diff
    norm_num
    rw [if_neg (by decide : ¬ ("A1" : String) = "B2")]
    norm_num
  · unfold calculate_cheque_similarity dict_a dict_e
    norm_num
    rw [if_neg (by decide : ¬ ("A1" : String) = "B2")]
    norm_num

end ChequeManager
